import Mathlib

/-!
# Verification of the credential-lifecycle core of gorilla-vault-api

Shallow embedding of the transactional `AuthenticationService` variant
(`signUpWithToken`, `signInWithToken`, `refreshToken`, `resetPasswordSend`,
`resetPasswordConfirm`, `recoverPasswordConfirm`, `accountVerificationConfirm`,
`pureAccountVerifySend`, `genTokensAndSendResponse`) together with the backing
stores it drives.  Persisted rows are lists of records, the clock is an explicit
`now : Nat` (seconds), uuid/jti draws and freshly created row ids are threaded
explicitly (`nextId`).  Each service method is embedded as a function from the
store state to a `TxResult`: the database state at the point the method returns
or throws, the fire-and-forget mail dispatches it performed, and the outcome
(`Except Err`).  The transaction wrapper around every method is modelled by
`runTx` (all-or-nothing: a thrown error discards the database writes but not the
already-dispatched mail).
-/

namespace GorillaVault

/-- Exception message codes (`model/enum/exception-message-code.enum`) used by
the authentication flows. -/
inductive ErrCode where
  | USER_EMAIL_EXISTS
  | EMAIL_OR_PASSWORD_INVALID
  | INVALID_TOKEN
  | REFRESH_TOKEN_REUSE
  | WAIT_FOR_ANOTHER_DAY
  | PASSWORD_INVALID
  | NEW_PASSWORD_SAME
  | RESET_PASSWORD_TOKEN_REUSE
  | RESET_PASSWORD_REQUEST_NOT_FOUND
  | RESET_PASSWORD_REQUEST_INVALID
  | RECOVER_PASSWORD_TOKEN_REUSE
  | RECOVER_PASSWORD_REQUEST_NOT_FOUND
  | RECOVER_PASSWORD_REQUEST_INVALID
  | ACCOUNT_VERIFICATION_TOKEN_REUSE
  | ACCOUNT_VERIFICATION_REQUEST_NOT_FOUND
  | ACCOUNT_VERIFICATION_REQUEST_INVALID
  | USER_NOT_FOUND
  | USER_LOCKED
  | USER_NOT_VERIFIED
  | USER_ALREADY_VERIFIED
  deriving DecidableEq, Repr

/-- Error taxonomy: HTTP-exception classes of `@nestjs/common` plus the two
distinguished token exceptions of the repository
(`TokenExpiredException`, `RefreshTokenExpiredException`) and the jwt
verification failure (`InvalidTokenError` of the Token Codec). -/
inductive Err where
  | unauthorized (code : ErrCode)
  | forbidden (code : ErrCode)
  | notFound (code : ErrCode)
  | internal (msg : String)
  | tokenExpired
  | refreshTokenExpired
  | invalidJwt
  deriving DecidableEq, Repr

/-- The five token kinds of the Token Codec, each with its own secret and
expiry. -/
inductive TokenKind where
  | access
  | refresh
  | resetPassword
  | recoverPassword
  | accountVerify
  deriving DecidableEq, Repr

/-- A signed token.  `sigOk` abstracts "was signed with the correct secret for
its kind" (the jwt service is stateless and pure given secrets, spec 4.1); the
serialized string form is identified with the record itself, so literal string
equality of tokens is structural equality here. -/
structure Token where
  kind : TokenKind
  userId : Nat
  email : String
  jti : Nat
  iat : Nat
  exp : Nat
  sigOk : Bool
  deriving DecidableEq, Repr

/-- Transport form of a token handed to clients: plain, or additionally
AES-encrypted when the session-encryption feature flag is on. -/
inductive Transport where
  | plain (t : Token)
  | encrypted (t : Token)
  deriving DecidableEq, Repr

/-- Caller platform decoded from the platform header. -/
inductive Platform where
  | web
  | mobile
  | unknown
  deriving DecidableEq, Repr

/-- Fire-and-forget outbound mail dispatches (`AuthenticationMailService`). -/
inductive Mail where
  | reuse (email : String) (accountWasLocked : Bool)
  | passwordReset (email : String) (securityToken : Token)
  | passwordRecover (email : String) (securityToken : Token) (newPasswordText : String)
  | accountVerify (email : String) (securityToken : Token)
  deriving DecidableEq, Repr

/-- Responses produced by the service methods (cookie pair + flag for web,
explicit token pair for mobile, a 500 payload for an unknown platform, a
rendered page for the confirm endpoints). -/
inductive Resp where
  | webPair (accessToken refreshToken : Transport) (isAccountVerified : Bool)
  | mobilePair (accessToken refreshToken : Transport) (isAccountVerified : Bool)
  | status500
  | page (text : String)
  deriving DecidableEq, Repr

/-- `User` row (only the fields this subsystem touches). -/
structure User where
  id : Nat
  email : String
  deriving DecidableEq, Repr

/-- `UserIdentity` row: password hash, account-verified flag, lock flag and the
opt-in strict mode. -/
structure UserIdentity where
  id : Nat
  userId : Nat
  password : String
  isAccountVerified : Bool
  isLocked : Bool
  strictMode : Bool
  deriving DecidableEq, Repr

/-- `RefreshToken` row: one issued refresh token (`exp`/`iat` stored alongside
for exact-equality verification; hard-deleted, never soft-deleted). -/
structure RefreshTokenRecord where
  id : Nat
  userId : Nat
  jti : Nat
  iat : Nat
  exp : Nat
  token : Token
  deriving DecidableEq, Repr

/-- `ResetPassword` row (self-service request, reset flow). -/
structure ResetPassword where
  id : Nat
  userId : Nat
  securityToken : Token
  newPassword : String
  jti : Nat
  deletedAt : Option Nat
  deriving DecidableEq, Repr

/-- `RecoverPassword` row (self-service request, recover flow); same shape as
the reset row (`src/unnamed/part_003` repository). -/
structure RecoverPassword where
  id : Nat
  userId : Nat
  securityToken : Token
  newPassword : String
  jti : Nat
  deletedAt : Option Nat
  deriving DecidableEq, Repr

/-- `AccountVerification` row (self-service request, verify flow; no pending
password). -/
structure AccountVerification where
  id : Nat
  userId : Nat
  securityToken : Token
  jti : Nat
  deletedAt : Option Nat
  deriving DecidableEq, Repr

/-- Attempt-count row, 1:1 with its parent self-service request (`parentId`).
Modelled from the spec: the Prisma schema is not in src; per spec 4.3 a freshly
created counter starts at count = 1 with its stamp at creation time. -/
structure AttemptCount where
  id : Nat
  parentId : Nat
  count : Nat
  countIncreaseLastUpdateDate : Nat
  deletedAt : Option Nat
  deriving DecidableEq, Repr

/-- The Credential Store: every persisted table this subsystem reads or
writes, plus the id source for created rows. -/
structure St where
  users : List User
  identities : List UserIdentity
  refreshTokens : List RefreshTokenRecord
  resetPasswords : List ResetPassword
  resetPasswordAttemptCounts : List AttemptCount
  recoverPasswords : List RecoverPassword
  recoverPasswordAttemptCounts : List AttemptCount
  accountVerifications : List AccountVerification
  accVerifyAttemptCounts : List AttemptCount
  nextId : Nat
  deriving DecidableEq, Repr

/-- Configuration surface (spec 6): per-kind expiries, the attempt cap, the
cooldown window and the transport-encryption flag.  Modelled from the spec:
`common/constants` and the env service are not in src. -/
structure Cfg where
  maxAttemptCount : Nat
  oneDaySec : Nat
  encActive : Bool
  accessExpSec : Nat
  refreshExpSec : Nat
  resetExpSec : Nat
  recoverExpSec : Nat
  verifyExpSec : Nat
  deriving DecidableEq, Repr

/-- Result of running one service-method body against the ambient transaction:
the database state at exit (at the throw point when the outcome is an error),
the mail dispatches performed (not transactional), and the outcome. -/
structure TxResult (α : Type) where
  st : St
  mails : List Mail
  result : Except Err α
  deriving Repr

/-- Modelled from the spec: `transaction.handle` (`common/transaction`, not in
src) wraps every flow in a single transaction with all-or-nothing visibility
(spec 3, 5): on a thrown error the database writes are rolled back; mail
dispatch is fire-and-forget and survives the rollback. -/
def runTx {α : Type} (s : St) (r : TxResult α) : TxResult α :=
  match r.result with
  | .ok _ => r
  | .error e => { st := s, mails := r.mails, result := .error e }

/-- `true` iff an `Except` outcome is a success. -/
def isOkResult {α : Type} : Except Err α → Bool
  | .ok _ => true
  | .error _ => false

/-- The `isAccountVerified` flag carried by a successful web or mobile
response. -/
def respVerifiedFlag : Except Err Resp → Option Bool
  | .ok (.webPair _ _ v) => some v
  | .ok (.mobilePair _ _ v) => some v
  | _ => none

/-- Modelled from the spec: bcrypt hashing (external library), as an injective
deterministic digest. -/
def bhash (password : String) : String :=
  "bcrypt$" ++ password

/-- Modelled from the spec: `bcrypt.compare(plain, digest)`. -/
def bcryptCompare (password digest : String) : Bool :=
  decide (digest = bhash password)

/-- Modelled from the spec: the Token Codec's mint operation (`jwt.service`,
not in src): signs claims `{email, userId, jti}` for a kind, stamping
`iat = now` and `exp = now + expiry(kind)`. -/
def genToken (kind : TokenKind) (now expSec : Nat) (userId : Nat) (email : String)
    (jti : Nat) : Token :=
  { kind := kind, userId := userId, email := email, jti := jti,
    iat := now, exp := now + expSec, sigOk := true }

/-- Modelled from the spec: `validateRefreshTokenSignatureOnly` — signature
(and kind/secret) check only, no expiry or claim-equality check. -/
def validateRefreshTokenSignatureOnly (t : Token) : Except Err Unit :=
  if t.kind = TokenKind.refresh ∧ t.sigOk then .ok () else .error .invalidJwt

/-- Modelled from the spec: `validateRefreshToken` — full verification:
signature, then expiry (a time-expired token fails with the distinguished
`TokenExpiredException`), then exact `exp`/`iat` equality against the stored
refresh-token record (mismatch fails like any invalid token). -/
def validateRefreshTokenFull (now : Nat) (t : Token) (recExp recIat : Nat) :
    Except Err Unit :=
  if ¬(t.kind = TokenKind.refresh ∧ t.sigOk) then .error .invalidJwt
  else if t.exp < now then .error .tokenExpired
  else if ¬(t.exp = recExp ∧ t.iat = recIat) then .error .invalidJwt
  else .ok ()

/-- Modelled from the spec: full verification of a self-service flow token
against the stored request (`validateResetPasswordToken` and friends):
signature/kind, expiry, then claim equality `{sub = email, userId, jti}`. -/
def validateFlowToken (now : Nat) (kind : TokenKind) (t : Token) (email : String)
    (userId jti : Nat) : Except Err Unit :=
  if ¬(t.kind = kind ∧ t.sigOk) then .error .invalidJwt
  else if t.exp < now then .error .tokenExpired
  else if ¬(t.email = email ∧ t.userId = userId ∧ t.jti = jti) then .error .invalidJwt
  else .ok ()

/-- Flags of `userService.validateUser` selecting the verification-state
precondition a flow requires. -/
structure ValidateFlags where
  showNotVerifiedErr : Bool := false
  showIsVerifiedErr : Bool := false
  deriving DecidableEq, Repr

/-- Modelled from the spec: `userService.validateUser` (not in src).  Per spec
4.4 a flow fails on a verification-state mismatch with a flow-specific error
(`showNotVerifiedErr` demands an already-verified account, `showIsVerifiedErr`
a not-yet-verified one) and per spec 7 a locked account is barred; a missing
user is a not-found failure. -/
def validateUser (u? : Option (User × UserIdentity)) (flags : ValidateFlags) :
    Except Err (User × UserIdentity) :=
  match u? with
  | none => .error (.notFound .USER_NOT_FOUND)
  | some (u, ident) =>
    if ident.isLocked then .error (.forbidden .USER_LOCKED)
    else if flags.showIsVerifiedErr && ident.isAccountVerified then
      .error (.forbidden .USER_ALREADY_VERIFIED)
    else if flags.showNotVerifiedErr && !ident.isAccountVerified then
      .error (.forbidden .USER_NOT_VERIFIED)
    else .ok (u, ident)

/-- Store read: user row by id. -/
def St.userById (s : St) (id : Nat) : Option User :=
  s.users.find? (fun u => decide (u.id = id))

/-- Store read: identity row by owning user id. -/
def St.identityByUserId (s : St) (userId : Nat) : Option UserIdentity :=
  s.identities.find? (fun i => decide (i.userId = userId))

/-- `userService.getByIdIncludeIdentity`: user joined with its identity,
absent when either row is missing. -/
def St.userWithIdentityById (s : St) (id : Nat) : Option (User × UserIdentity) :=
  match s.userById id, s.identityByUserId id with
  | some u, some i => some (u, i)
  | _, _ => none

/-- `userService.getByEmailIncludeIdentity`. -/
def St.userWithIdentityByEmail (s : St) (email : String) : Option (User × UserIdentity) :=
  match s.users.find? (fun u => decide (u.email = email)) with
  | some u =>
    match s.identityByUserId u.id with
    | some i => some (u, i)
    | none => none
  | none => none

/-- `userIdentityService.updateIsLockedById`. -/
def St.setLockedByIdentityId (s : St) (identId : Nat) (v : Bool) : St :=
  { s with identities :=
      s.identities.map (fun i => if i.id = identId then { i with isLocked := v } else i) }

/-- `userIdentityService.updatePasswordById`. -/
def St.setPasswordByIdentityId (s : St) (identId : Nat) (digest : String) : St :=
  { s with identities :=
      s.identities.map (fun i => if i.id = identId then { i with password := digest } else i) }

/-- `userIdentityService.updateIsAccVerified` (keyed by user id). -/
def St.setVerifiedByUserId (s : St) (userId : Nat) (v : Bool) : St :=
  { s with identities :=
      s.identities.map (fun i => if i.userId = userId then { i with isAccountVerified := v } else i) }

/-- Refresh-token store: `getByJTI`. -/
def St.refreshByJTI (s : St) (jti : Nat) : Option RefreshTokenRecord :=
  s.refreshTokens.find? (fun r => decide (r.jti = jti))

/-- Refresh-token store: `deleteById` (hard delete). -/
def St.deleteRefreshById (s : St) (id : Nat) : St :=
  { s with refreshTokens := s.refreshTokens.filter (fun r => decide (r.id ≠ id)) }

/-- Refresh-token store: `deleteAllByUserId` (revocation, hard delete). -/
def St.deleteAllRefreshByUserId (s : St) (userId : Nat) : St :=
  { s with refreshTokens := s.refreshTokens.filter (fun r => decide (r.userId ≠ userId)) }

/-- Reset-password store: `getByUserId` — live rows only (`deletedAt: null`),
as in the analogous repository `src/unnamed/part_003`. -/
def St.resetByUserId (s : St) (userId : Nat) : Option ResetPassword :=
  s.resetPasswords.find? (fun r => decide (r.userId = userId) && decide (r.deletedAt = none))

/-- Reset-password store: `getByJTI` — no `deletedAt` filter, so soft-deleted
rows are found too (`src/unnamed/part_003`). -/
def St.resetByJTI (s : St) (jti : Nat) : Option ResetPassword :=
  s.resetPasswords.find? (fun r => decide (r.jti = jti))

/-- Recover-password store: `getByUserId` (live rows only). -/
def St.recoverByUserId (s : St) (userId : Nat) : Option RecoverPassword :=
  s.recoverPasswords.find? (fun r => decide (r.userId = userId) && decide (r.deletedAt = none))

/-- Recover-password store: `getByJTI` (includes soft-deleted rows). -/
def St.recoverByJTI (s : St) (jti : Nat) : Option RecoverPassword :=
  s.recoverPasswords.find? (fun r => decide (r.jti = jti))

/-- Account-verification store: `getByUserId` (live rows only). -/
def St.accVerifyByUserId (s : St) (userId : Nat) : Option AccountVerification :=
  s.accountVerifications.find? (fun a => decide (a.userId = userId) && decide (a.deletedAt = none))

/-- Account-verification store: `getByJTI` (includes soft-deleted rows). -/
def St.accVerifyByJTI (s : St) (jti : Nat) : Option AccountVerification :=
  s.accountVerifications.find? (fun a => decide (a.jti = jti))

/-- Attempt-count store: `getBy<Parent>Id` with its `includeDeleted` flag. -/
def attemptByParentId (counts : List AttemptCount) (parentId : Nat)
    (includeDeleted : Bool) : Option AttemptCount :=
  counts.find? (fun c =>
    decide (c.parentId = parentId) && (includeDeleted || decide (c.deletedAt = none)))

/-- Attempt-count store: `updateById`. -/
def updateAttemptById (counts : List AttemptCount) (id : Nat) (count stamp : Nat) :
    List AttemptCount :=
  counts.map (fun c =>
    if c.id = id then { c with count := count, countIncreaseLastUpdateDate := stamp } else c)

/-- Attempt-count store: soft-delete the counter of a request (the confirm
flows pass the parent request's id; the 1:1 counter of that request is the row
soft-deleted, per spec 4.4). -/
def softDeleteAttemptByParent (counts : List AttemptCount) (parentId now : Nat) :
    List AttemptCount :=
  counts.map (fun c => if c.parentId = parentId then { c with deletedAt := some now } else c)

/-- The attempt-count section shared verbatim by `resetPasswordSend` (lines
291-332), `recoverPasswordSend` (387-428) and `pureAccountVerifySend` (720-761)
of `src/unnamed/part_004`: create the counter if absent; below the cap,
increment and stamp; at the cap within the cooldown, refuse with
`WAIT_FOR_ANOTHER_DAY`; past the cooldown, reset the count to 0 and stamp.
Returns the updated table and id source. -/
def attemptCountStep (cfg : Cfg) (counts : List AttemptCount) (nextId parentId now : Nat) :
    Except Err (List AttemptCount × Nat) :=
  match attemptByParentId counts parentId false with
  | none =>
    .ok (counts ++ [{ id := nextId, parentId := parentId, count := 1,
                      countIncreaseLastUpdateDate := now, deletedAt := none }], nextId + 1)
  | some c =>
    if c.count < cfg.maxAttemptCount then
      .ok (updateAttemptById counts c.id (c.count + 1) now, nextId)
    else if now - c.countIncreaseLastUpdateDate ≤ cfg.oneDaySec then
      .error (.forbidden .WAIT_FOR_ANOTHER_DAY)
    else
      .ok (updateAttemptById counts c.id 0 now, nextId)

/-- `genTokensAndSendResponse` (part_004 lines 773-810): mint a fresh
access/refresh pair, persist one new refresh-token record from the refresh
token's decoded payload, transport-encrypt when the session flag is on, and
build the platform response (an unknown platform yields a 500 payload, not an
exception). -/
def genTokensAndSendResponse (cfg : Cfg) (s : St) (now : Nat) (platform : Platform)
    (isAccountVerified : Bool) (email : String) (userId refreshJti : Nat) :
    TxResult Resp :=
  let accessToken := genToken .access now cfg.accessExpSec userId email 0
  let refreshTok := genToken .refresh now cfg.refreshExpSec userId email refreshJti
  let record : RefreshTokenRecord :=
    { id := s.nextId, userId := userId, jti := refreshTok.jti,
      iat := refreshTok.iat, exp := refreshTok.exp, token := refreshTok }
  let s1 := { s with refreshTokens := s.refreshTokens ++ [record], nextId := s.nextId + 1 }
  let finalAccess := if cfg.encActive then Transport.encrypted accessToken
                     else Transport.plain accessToken
  let finalRefresh := if cfg.encActive then Transport.encrypted refreshTok
                      else Transport.plain refreshTok
  match platform with
  | .web => ⟨s1, [], .ok (.webPair finalAccess finalRefresh isAccountVerified)⟩
  | .mobile => ⟨s1, [], .ok (.mobilePair finalAccess finalRefresh isAccountVerified)⟩
  | .unknown => ⟨s1, [], .ok .status500⟩

/-- `refreshToken` body (part_004 lines 169-240): decrypt the transport layer
(`old?` is the decrypt outcome, `none` for an absent/undecryptable token),
decode the payload, look the record up by `jti`, validate the user, validate
the signature only, then: record absent means reuse (revoke all of the user's
refresh tokens, lock + high-severity alert iff strict mode, else low-severity
alert, throw `REFRESH_TOKEN_REUSE`); record present means full verification
(time-expiry deletes the record and throws `RefreshTokenExpiredException`, any
other failure propagates), and on success a new pair is issued. -/
def refreshTokenBody (cfg : Cfg) (s : St) (now : Nat) (old? : Option Token)
    (refreshJti : Nat) (platform : Platform) : TxResult Resp :=
  match old? with
  | none => ⟨s, [], .error (.unauthorized .INVALID_TOKEN)⟩
  | some tok =>
    let record? := s.refreshByJTI tok.jti
    match validateUser (s.userWithIdentityById tok.userId) { showNotVerifiedErr := true } with
    | .error e => ⟨s, [], .error e⟩
    | .ok (user, ident) =>
      match validateRefreshTokenSignatureOnly tok with
      | .error e => ⟨s, [], .error e⟩
      | .ok _ =>
        match record? with
        | none =>
          let s1 := s.deleteAllRefreshByUserId user.id
          if ident.strictMode then
            ⟨s1.setLockedByIdentityId ident.id true, [Mail.reuse user.email true],
             .error (.unauthorized .REFRESH_TOKEN_REUSE)⟩
          else
            ⟨s1, [Mail.reuse user.email false],
             .error (.unauthorized .REFRESH_TOKEN_REUSE)⟩
        | some record =>
          match validateRefreshTokenFull now tok record.exp record.iat with
          | .error Err.tokenExpired =>
            ⟨s.deleteRefreshById record.id, [], .error .refreshTokenExpired⟩
          | .error e => ⟨s, [], .error e⟩
          | .ok _ =>
            genTokensAndSendResponse cfg s now platform ident.isAccountVerified
              user.email user.id refreshJti

/-- Committed `refreshToken` call: the body under the transaction wrapper. -/
def refreshToken (cfg : Cfg) (s : St) (now : Nat) (old? : Option Token)
    (refreshJti : Nat) (platform : Platform) : TxResult Resp :=
  runTx s (refreshTokenBody cfg s now old? refreshJti platform)

/-- `pureAccountVerifySend` (part_004 lines 700-771): validate the user is
not yet verified, mint a verify token under a fresh `jti`, upsert the
account-verification request in place, run the attempt-count section, then
dispatch the verification mail. -/
def pureAccountVerifySend (cfg : Cfg) (s : St) (now : Nat) (email : String)
    (jti : Nat) : TxResult Unit :=
  match validateUser (s.userWithIdentityByEmail email) { showIsVerifiedErr := true } with
  | .error e => ⟨s, [], .error e⟩
  | .ok (user, _ident) =>
    let securityToken := genToken .accountVerify now cfg.verifyExpSec user.id email jti
    let (s1, avId) :=
      match s.accVerifyByUserId user.id with
      | some av =>
        ({ s with accountVerifications :=
             s.accountVerifications.map (fun (a : AccountVerification) =>
               if a.id = av.id then { a with securityToken := securityToken, jti := jti }
               else a) }, av.id)
      | none =>
        let fresh : AccountVerification :=
          { id := s.nextId, userId := user.id, securityToken := securityToken,
            jti := jti, deletedAt := none }
        let upd := s.accountVerifications ++ [fresh]
        ({ s with accountVerifications := upd, nextId := s.nextId + 1 }, s.nextId)
    match attemptCountStep cfg s1.accVerifyAttemptCounts s1.nextId avId now with
    | .error e => ⟨s1, [], .error e⟩
    | .ok (counts, nid) =>
      ⟨{ s1 with accVerifyAttemptCounts := counts, nextId := nid },
       [Mail.accountVerify user.email securityToken], .ok ()⟩

/-- `signUpWithToken` body (part_004 lines 69-106): refuse an existing email,
create the user and its identity (hashed password; a fresh identity is
unverified, unlocked and non-strict — Prisma defaults modelled from the spec),
run `pureAccountVerifySend` inside the same transaction, then issue the first
token pair with `isAccountVerified := false`. -/
def signUpBody (cfg : Cfg) (s : St) (now : Nat) (email password : String)
    (verifyJti refreshJti : Nat) (platform : Platform) : TxResult Resp :=
  if s.users.any (fun u => decide (u.email = email)) then
    ⟨s, [], .error (.unauthorized .USER_EMAIL_EXISTS)⟩
  else
    let userId := s.nextId
    let user : User := { id := userId, email := email }
    let s1 := { s with users := s.users ++ [user], nextId := s.nextId + 1 }
    let ident : UserIdentity :=
      { id := s1.nextId, userId := userId, password := bhash password,
        isAccountVerified := false, isLocked := false, strictMode := false }
    let s2 := { s1 with identities := s1.identities ++ [ident], nextId := s1.nextId + 1 }
    match pureAccountVerifySend cfg s2 now email verifyJti with
    | ⟨s3, mails, .error e⟩ => ⟨s3, mails, .error e⟩
    | ⟨s3, mails, .ok _⟩ =>
      let g := genTokensAndSendResponse cfg s3 now platform false email userId refreshJti
      ⟨g.st, mails ++ g.mails, g.result⟩

/-- Committed `signUpWithToken` call. -/
def signUpWithToken (cfg : Cfg) (s : St) (now : Nat) (email password : String)
    (verifyJti refreshJti : Nat) (platform : Platform) : TxResult Resp :=
  runTx s (signUpBody cfg s now email password verifyJti refreshJti platform)

/-- `signInWithToken` body (part_004 lines 108-131): load the user by email
(absence is reported as the coarse `EMAIL_OR_PASSWORD_INVALID`), validate the
user with `showNotVerifiedErr`, compare the password, then issue a token pair
carrying the identity's `isAccountVerified`. -/
def signInBody (cfg : Cfg) (s : St) (now : Nat) (email password : String)
    (refreshJti : Nat) (platform : Platform) : TxResult Resp :=
  match s.userWithIdentityByEmail email with
  | none => ⟨s, [], .error (.unauthorized .EMAIL_OR_PASSWORD_INVALID)⟩
  | some (user, ident) =>
    match validateUser (some (user, ident)) { showNotVerifiedErr := true } with
    | .error e => ⟨s, [], .error e⟩
    | .ok _ =>
      if !bcryptCompare password ident.password then
        ⟨s, [], .error (.unauthorized .EMAIL_OR_PASSWORD_INVALID)⟩
      else
        genTokensAndSendResponse cfg s now platform ident.isAccountVerified
          user.email user.id refreshJti

/-- Committed `signInWithToken` call. -/
def signInWithToken (cfg : Cfg) (s : St) (now : Nat) (email password : String)
    (refreshJti : Nat) (platform : Platform) : TxResult Resp :=
  runTx s (signInBody cfg s now email password refreshJti platform)

/-- `resetPasswordSend` body (part_004 lines 242-343): check the old password
and that the new one differs, validate the user (already-verified required),
mint a reset token under a fresh `jti`, upsert the reset request in place with
the new pending password hash, run the attempt-count section, then dispatch
the confirmation-link mail. -/
def resetPasswordSendBody (cfg : Cfg) (s : St) (now userId : Nat)
    (newPassword oldPassword : String) (jti : Nat) : TxResult Unit :=
  match s.userWithIdentityById userId with
  | none => ⟨s, [], .error (.notFound .USER_NOT_FOUND)⟩
  | some (user, ident) =>
    if !bcryptCompare oldPassword ident.password then
      ⟨s, [], .error (.unauthorized .PASSWORD_INVALID)⟩
    else if oldPassword = newPassword then
      ⟨s, [], .error (.unauthorized .NEW_PASSWORD_SAME)⟩
    else
      match validateUser (some (user, ident)) { showNotVerifiedErr := true } with
      | .error e => ⟨s, [], .error e⟩
      | .ok _ =>
        let securityToken := genToken .resetPassword now cfg.resetExpSec userId user.email jti
        let newPasswordHashed := bhash newPassword
        let (s1, rpId) :=
          match s.resetByUserId user.id with
          | some rp =>
            ({ s with resetPasswords :=
                 s.resetPasswords.map (fun (r : ResetPassword) =>
                   if r.id = rp.id then
                     { r with securityToken := securityToken,
                              newPassword := newPasswordHashed, jti := jti }
                   else r) }, rp.id)
          | none =>
            let fresh : ResetPassword :=
              { id := s.nextId, userId := userId, securityToken := securityToken,
                newPassword := newPasswordHashed, jti := jti, deletedAt := none }
            let upd := s.resetPasswords ++ [fresh]
            ({ s with resetPasswords := upd, nextId := s.nextId + 1 }, s.nextId)
        match attemptCountStep cfg s1.resetPasswordAttemptCounts s1.nextId rpId now with
        | .error e => ⟨s1, [], .error e⟩
        | .ok (counts, nid) =>
          ⟨{ s1 with resetPasswordAttemptCounts := counts, nextId := nid },
           [Mail.passwordReset user.email securityToken], .ok ()⟩

/-- Committed `resetPasswordSend` call. -/
def resetPasswordSend (cfg : Cfg) (s : St) (now userId : Nat)
    (newPassword oldPassword : String) (jti : Nat) : TxResult Unit :=
  runTx s (resetPasswordSendBody cfg s now userId newPassword oldPassword jti)

/-- Committed `accountVerifySend` call (part_004 lines 442-446). -/
def accountVerifySend (cfg : Cfg) (s : St) (now : Nat) (email : String)
    (jti : Nat) : TxResult Unit :=
  runTx s (pureAccountVerifySend cfg s now email jti)

/-- `resetPasswordConfirm` body (part_004 lines 448-530): decode `{jti,
userId}`, load the user, look the request up by `jti` (soft-deleted rows
included).  A soft-deleted hit is replay handling: its counter is loaded with
`includeDeleted`, absence is an internal fault; past the one-day window the
account is locked iff strict mode, a reuse alert goes out and the call fails
with `RESET_PASSWORD_TOKEN_REUSE`; within the window a benign success page is
rendered with no side effect.  No hit at all is `RESET_PASSWORD_REQUEST_NOT_FOUND`
(a `NotFoundException`).  A live hit whose stored token differs literally from
the presented one is `RESET_PASSWORD_REQUEST_INVALID`; otherwise the user and
token are validated and, atomically, the pending password is applied and the
request and its counter are soft-deleted. -/
def resetPasswordConfirmBody (cfg : Cfg) (s : St) (now : Nat) (token : Token) :
    TxResult Resp :=
  let user? := s.userWithIdentityById token.userId
  match s.resetByJTI token.jti with
  | some rp =>
    match rp.deletedAt with
    | some _ =>
      match attemptByParentId s.resetPasswordAttemptCounts rp.id true with
      | none => ⟨s, [], .error (.internal "This should not happen")⟩
      | some attemptCount =>
        if attemptCount.countIncreaseLastUpdateDate + cfg.oneDaySec < now then
          match user? with
          | none => ⟨s, [], .error (.internal "TypeError: user is null")⟩
          | some (user, ident) =>
            if ident.strictMode then
              ⟨s.setLockedByIdentityId ident.id true, [Mail.reuse user.email true],
               .error (.forbidden .RESET_PASSWORD_TOKEN_REUSE)⟩
            else
              ⟨s, [Mail.reuse user.email false],
               .error (.forbidden .RESET_PASSWORD_TOKEN_REUSE)⟩
        else
          ⟨s, [], .ok (.page "Reset password already requested")⟩
    | none =>
      if token ≠ rp.securityToken then
        ⟨s, [], .error (.forbidden .RESET_PASSWORD_REQUEST_INVALID)⟩
      else
        match validateUser user? { showNotVerifiedErr := true } with
        | .error e => ⟨s, [], .error e⟩
        | .ok (user, ident) =>
          match validateFlowToken now .resetPassword token user.email user.id rp.jti with
          | .error e => ⟨s, [], .error e⟩
          | .ok _ =>
            let s1 := s.setPasswordByIdentityId ident.id rp.newPassword
            let s2 := { s1 with resetPasswords :=
              s1.resetPasswords.map (fun (r : ResetPassword) =>
                if r.id = rp.id then { r with deletedAt := some now } else r) }
            let s3 := { s2 with resetPasswordAttemptCounts :=
              softDeleteAttemptByParent s2.resetPasswordAttemptCounts rp.id now }
            ⟨s3, [], .ok (.page "Reset password was successsfull")⟩
  | none => ⟨s, [], .error (.notFound .RESET_PASSWORD_REQUEST_NOT_FOUND)⟩

/-- Committed `resetPasswordConfirm` call. -/
def resetPasswordConfirm (cfg : Cfg) (s : St) (now : Nat) (token : Token) :
    TxResult Resp :=
  runTx s (resetPasswordConfirmBody cfg s now token)

/-- `recoverPasswordConfirm` body (part_004 lines 532-612): identical shape to
the reset flow with the recover-flow stores, error codes and token kind. -/
def recoverPasswordConfirmBody (cfg : Cfg) (s : St) (now : Nat) (token : Token) :
    TxResult Resp :=
  let user? := s.userWithIdentityById token.userId
  match s.recoverByJTI token.jti with
  | some rp =>
    match rp.deletedAt with
    | some _ =>
      match attemptByParentId s.recoverPasswordAttemptCounts rp.id true with
      | none => ⟨s, [], .error (.internal "This should not happen")⟩
      | some attemptCount =>
        if attemptCount.countIncreaseLastUpdateDate + cfg.oneDaySec < now then
          match user? with
          | none => ⟨s, [], .error (.internal "TypeError: user is null")⟩
          | some (user, ident) =>
            if ident.strictMode then
              ⟨s.setLockedByIdentityId ident.id true, [Mail.reuse user.email true],
               .error (.forbidden .RECOVER_PASSWORD_TOKEN_REUSE)⟩
            else
              ⟨s, [Mail.reuse user.email false],
               .error (.forbidden .RECOVER_PASSWORD_TOKEN_REUSE)⟩
        else
          ⟨s, [], .ok (.page "Recover password already requested")⟩
    | none =>
      if token ≠ rp.securityToken then
        ⟨s, [], .error (.forbidden .RECOVER_PASSWORD_REQUEST_INVALID)⟩
      else
        match validateUser user? { showNotVerifiedErr := true } with
        | .error e => ⟨s, [], .error e⟩
        | .ok (user, ident) =>
          match validateFlowToken now .recoverPassword token user.email user.id rp.jti with
          | .error e => ⟨s, [], .error e⟩
          | .ok _ =>
            let s1 := s.setPasswordByIdentityId ident.id rp.newPassword
            let s2 := { s1 with recoverPasswords :=
              s1.recoverPasswords.map (fun (r : RecoverPassword) =>
                if r.id = rp.id then { r with deletedAt := some now } else r) }
            let s3 := { s2 with recoverPasswordAttemptCounts :=
              softDeleteAttemptByParent s2.recoverPasswordAttemptCounts rp.id now }
            ⟨s3, [], .ok (.page "Recover password was successsfull")⟩
  | none => ⟨s, [], .error (.notFound .RECOVER_PASSWORD_REQUEST_NOT_FOUND)⟩

/-- Committed `recoverPasswordConfirm` call. -/
def recoverPasswordConfirm (cfg : Cfg) (s : St) (now : Nat) (token : Token) :
    TxResult Resp :=
  runTx s (recoverPasswordConfirmBody cfg s now token)

/-- `accountVerificationConfirm` body (part_004 lines 614-698): same shape as
the password flows, with the verify-flow stores and codes; note the missing
request is reported with a `ForbiddenException` (line 666), unlike the two
password flows, and the success effect sets the identity verified and clears
its lock. -/
def accountVerificationConfirmBody (cfg : Cfg) (s : St) (now : Nat) (token : Token) :
    TxResult Resp :=
  let user? := s.userWithIdentityById token.userId
  match s.accVerifyByJTI token.jti with
  | some av =>
    match av.deletedAt with
    | some _ =>
      match attemptByParentId s.accVerifyAttemptCounts av.id true with
      | none => ⟨s, [], .error (.internal "This should not happen")⟩
      | some attemptCount =>
        if attemptCount.countIncreaseLastUpdateDate + cfg.oneDaySec < now then
          match user? with
          | none => ⟨s, [], .error (.internal "TypeError: user is null")⟩
          | some (user, ident) =>
            if ident.strictMode then
              ⟨s.setLockedByIdentityId ident.id true, [Mail.reuse user.email true],
               .error (.forbidden .ACCOUNT_VERIFICATION_TOKEN_REUSE)⟩
            else
              ⟨s, [Mail.reuse user.email false],
               .error (.forbidden .ACCOUNT_VERIFICATION_TOKEN_REUSE)⟩
        else
          ⟨s, [], .ok (.page "Account verify already requested")⟩
    | none =>
      if token ≠ av.securityToken then
        ⟨s, [], .error (.forbidden .ACCOUNT_VERIFICATION_REQUEST_INVALID)⟩
      else
        match validateUser user? { showIsVerifiedErr := true } with
        | .error e => ⟨s, [], .error e⟩
        | .ok (user, ident) =>
          match validateFlowToken now .accountVerify token user.email user.id av.jti with
          | .error e => ⟨s, [], .error e⟩
          | .ok _ =>
            let s1 := (s.setVerifiedByUserId token.userId true).setLockedByIdentityId
              ident.id false
            let s2 := { s1 with accountVerifications :=
              s1.accountVerifications.map (fun (a : AccountVerification) =>
                if a.id = av.id then { a with deletedAt := some now } else a) }
            let s3 := { s2 with accVerifyAttemptCounts :=
              softDeleteAttemptByParent s2.accVerifyAttemptCounts av.id now }
            ⟨s3, [], .ok (.page "Account verify was successsfull")⟩
  | none => ⟨s, [], .error (.forbidden .ACCOUNT_VERIFICATION_REQUEST_NOT_FOUND)⟩

/-- Committed `accountVerificationConfirm` call. -/
def accountVerificationConfirm (cfg : Cfg) (s : St) (now : Nat) (token : Token) :
    TxResult Resp :=
  runTx s (accountVerificationConfirmBody cfg s now token)

/-- Decidable equality of outcomes. -/
instance {ε α : Type} [DecidableEq ε] [DecidableEq α] : DecidableEq (Except ε α) :=
  fun x y =>
    match x, y with
    | .ok a, .ok b => if h : a = b then isTrue (by rw [h]) else isFalse (by simp [h])
    | .error a, .error b => if h : a = b then isTrue (by rw [h]) else isFalse (by simp [h])
    | .ok _, .error _ => isFalse (by simp)
    | .error _, .ok _ => isFalse (by simp)

/-! ## Concrete fixtures for witnesses and counterexamples -/

/-- A concrete configuration: cap 5 attempts, one-day cooldown, transport
encryption off. -/
def cfgD : Cfg :=
  { maxAttemptCount := 5, oneDaySec := 86400, encActive := false,
    accessExpSec := 3600, refreshExpSec := 100000, resetExpSec := 3600,
    recoverExpSec := 3600, verifyExpSec := 3600 }

/-- The empty store. -/
def emptySt : St :=
  { users := [], identities := [], refreshTokens := [], resetPasswords := [],
    resetPasswordAttemptCounts := [], recoverPasswords := [],
    recoverPasswordAttemptCounts := [], accountVerifications := [],
    accVerifyAttemptCounts := [], nextId := 1 }

/-- Fixture user. -/
def userD : User := { id := 1, email := "a@x.com" }

/-- Fixture identity: verified, unlocked, strict mode off. -/
def identD : UserIdentity :=
  { id := 2, userId := 1, password := bhash "old-pass", isAccountVerified := true,
    isLocked := false, strictMode := false }

/-- Fixture refresh token of `userD` under jti 10, minted at time 0. -/
def refreshTokD : Token := genToken .refresh 0 cfgD.refreshExpSec 1 "a@x.com" 10

/-- Fixture refresh-token record backing `refreshTokD`. -/
def refreshRecD : RefreshTokenRecord :=
  { id := 3, userId := 1, jti := 10, iat := refreshTokD.iat, exp := refreshTokD.exp,
    token := refreshTokD }

/-- Fixture store: one verified user holding one live refresh token. -/
def stSession : St :=
  { emptySt with
      users := [userD]
      identities := [identD]
      refreshTokens := [refreshRecD]
      nextId := 4 }

/-- A refresh token whose signature is invalid and whose jti (99) has no
backing record in `stSession`. -/
def tokBadSig : Token :=
  { kind := .refresh, userId := 1, email := "a@x.com", jti := 99, iat := 0,
    exp := 100000, sigOk := false }

/-- A well-signed refresh token whose jti (99) has no backing record in
`stSession`. -/
def tokNoRecord : Token := genToken .refresh 0 cfgD.refreshExpSec 1 "a@x.com" 99

/-- Fixture: a soft-deleted reset request of user 1 under jti 50. -/
def rpDeletedD : ResetPassword :=
  { id := 3, userId := 1, securityToken := genToken .resetPassword 900 3600 1 "a@x.com" 50,
    newPassword := bhash "pending", jti := 50, deletedAt := some 1200 }

/-- Fixture: the counter of `rpDeletedD`, retained through the soft delete,
last updated at time 1000. -/
def acDeletedD : AttemptCount :=
  { id := 4, parentId := 3, count := 2, countIncreaseLastUpdateDate := 1000,
    deletedAt := some 1200 }

/-- Fixture store for the replay scenarios. -/
def stReplay : St :=
  { emptySt with
      users := [userD]
      identities := [identD]
      resetPasswords := [rpDeletedD]
      resetPasswordAttemptCounts := [acDeletedD]
      nextId := 5 }

/-- Fixture: a live reset request of user 1 under jti 50. -/
def rpLiveD : ResetPassword :=
  { id := 3, userId := 1, securityToken := genToken .resetPassword 900 3600 1 "a@x.com" 50,
    newPassword := bhash "pending", jti := 50, deletedAt := none }

/-- Fixture: the live counter of `rpLiveD`, saturated at the cap of `cfgD`. -/
def acMaxD : AttemptCount :=
  { id := 4, parentId := 3, count := 5, countIncreaseLastUpdateDate := 1000,
    deletedAt := none }

/-- Fixture store for the rate-limited send scenarios. -/
def stRateLimited : St :=
  { emptySt with
      users := [userD]
      identities := [identD]
      resetPasswords := [rpLiveD]
      resetPasswordAttemptCounts := [acMaxD]
      nextId := 5 }

/-! ## Claims -/

/-- C1: the claim says a successful refresh consumes (deletes) the presented
refresh-token record so a second `refresh(t)` fails with
`Unauthorized(RefreshTokenReuse)`.  The code's success path
(part_004 lines 214-239) never deletes the old record: after a successful
refresh the old record is still live (two live records for the user), and a
second refresh presenting the same token succeeds again. -/
theorem c1_successful_refresh_keeps_old_record_and_second_refresh_succeeds :
    isOkResult (refreshToken cfgD stSession 5 (some refreshTokD) 11 .mobile).result = true
    ∧ ((refreshToken cfgD stSession 5 (some refreshTokD) 11 .mobile).st.refreshByJTI 10).isSome
        = true
    ∧ (refreshToken cfgD stSession 5 (some refreshTokD) 11 .mobile).st.refreshTokens.length = 2
    ∧ isOkResult (refreshToken cfgD
        (refreshToken cfgD stSession 5 (some refreshTokD) 11 .mobile).st
        6 (some refreshTokD) 12 .mobile).result = true := by
  decide

/-- C2 counterexample: the claim asserts reuse handling fires for an absent
record "regardless of whether the token's signature has been verified".  The
code validates the signature (signature-only) before the reuse branch
(part_004 line 193 before line 196): a badly-signed token with an absent
record fails with the jwt verification error, nothing is revoked, nobody is
locked, and no alert is dispatched. -/
theorem c2_bad_signature_token_skips_reuse_handling :
    (refreshToken cfgD stSession 5 (some tokBadSig) 11 .mobile).result = .error .invalidJwt
    ∧ (refreshToken cfgD stSession 5 (some tokBadSig) 11 .mobile).result
        ≠ .error (.unauthorized .REFRESH_TOKEN_REUSE)
    ∧ (refreshToken cfgD stSession 5 (some tokBadSig) 11 .mobile).st = stSession
    ∧ (refreshToken cfgD stSession 5 (some tokBadSig) 11 .mobile).mails = [] := by
  decide

/-- C2 (amended): for every refresh call presenting a token that decodes to an
existing, valid (verified, unlocked) user, passes the signature-only check,
and whose jti has no backing record, the flow deletes all refresh tokens of
the decoded user, locks the account exactly when the identity has strict mode,
dispatches a reuse alert whose severity equals the strict-mode flag, and fails
with `Unauthorized(REFRESH_TOKEN_REUSE)`. -/
theorem c2_reuse_detection_after_signature_check
    (cfg : Cfg) (s : St) (now : Nat) (tok : Token) (refreshJti : Nat)
    (platform : Platform) (user : User) (ident : UserIdentity)
    (hu : s.userWithIdentityById tok.userId = some (user, ident))
    (hlock : ident.isLocked = false)
    (hver : ident.isAccountVerified = true)
    (hkind : tok.kind = .refresh)
    (hsig : tok.sigOk = true)
    (habsent : s.refreshByJTI tok.jti = none) :
    (refreshTokenBody cfg s now (some tok) refreshJti platform).result
        = .error (.unauthorized .REFRESH_TOKEN_REUSE)
    ∧ (refreshTokenBody cfg s now (some tok) refreshJti platform).st.refreshTokens
        = s.refreshTokens.filter (fun r => decide (r.userId ≠ user.id))
    ∧ (ident.strictMode = true →
        (refreshTokenBody cfg s now (some tok) refreshJti platform).st
          = (s.deleteAllRefreshByUserId user.id).setLockedByIdentityId ident.id true)
    ∧ (ident.strictMode = false →
        (refreshTokenBody cfg s now (some tok) refreshJti platform).st
          = s.deleteAllRefreshByUserId user.id)
    ∧ (refreshTokenBody cfg s now (some tok) refreshJti platform).mails
        = [Mail.reuse user.email ident.strictMode] := by
  simp only [refreshTokenBody, hu, habsent, validateUser, hlock,
    validateRefreshTokenSignatureOnly, hkind, hsig, hver]
  cases hstrict : ident.strictMode <;>
    simp [hstrict, St.deleteAllRefreshByUserId, St.setLockedByIdentityId]

/-- C2 witness: the amended theorem applied to a concrete well-signed token
with no backing record. -/
theorem c2_reuse_detection_after_signature_check_witness :
    (refreshTokenBody cfgD stSession 5 (some tokNoRecord) 11 .mobile).result
      = .error (.unauthorized .REFRESH_TOKEN_REUSE)
    ∧ (refreshTokenBody cfgD stSession 5 (some tokNoRecord) 11 .mobile).st
      = stSession.deleteAllRefreshByUserId 1
    ∧ (refreshTokenBody cfgD stSession 5 (some tokNoRecord) 11 .mobile).mails
      = [Mail.reuse "a@x.com" false] := by
  have h := c2_reuse_detection_after_signature_check cfgD stSession 5 tokNoRecord 11
    .mobile userD identD (by decide) (by decide) (by decide) (by decide) (by decide)
    (by decide)
  exact ⟨h.1, h.2.2.2.1 (by decide), h.2.2.2.2⟩

/-- C5: when the backing record is present but full verification fails with
the jwt time-expiry error, the flow deletes exactly that one record, fails
with the distinguished `RefreshTokenExpiredException`, and performs no reuse
escalation: no lock, no revocation of the user's other tokens, no change to
any other store, no mail. -/
theorem c5_expired_refresh_deletes_only_that_record
    (cfg : Cfg) (s : St) (now : Nat) (tok : Token) (refreshJti : Nat)
    (platform : Platform) (user : User) (ident : UserIdentity)
    (record : RefreshTokenRecord)
    (hu : s.userWithIdentityById tok.userId = some (user, ident))
    (hlock : ident.isLocked = false)
    (hver : ident.isAccountVerified = true)
    (hkind : tok.kind = .refresh)
    (hsig : tok.sigOk = true)
    (hrec : s.refreshByJTI tok.jti = some record)
    (hexp : tok.exp < now) :
    (refreshTokenBody cfg s now (some tok) refreshJti platform).result
        = .error .refreshTokenExpired
    ∧ (refreshTokenBody cfg s now (some tok) refreshJti platform).st
        = s.deleteRefreshById record.id
    ∧ (refreshTokenBody cfg s now (some tok) refreshJti platform).st.refreshTokens
        = s.refreshTokens.filter (fun r => decide (r.id ≠ record.id))
    ∧ (refreshTokenBody cfg s now (some tok) refreshJti platform).st.identities
        = s.identities
    ∧ (refreshTokenBody cfg s now (some tok) refreshJti platform).st.users = s.users
    ∧ (refreshTokenBody cfg s now (some tok) refreshJti platform).st.resetPasswords
        = s.resetPasswords
    ∧ (refreshTokenBody cfg s now (some tok) refreshJti platform).st.resetPasswordAttemptCounts
        = s.resetPasswordAttemptCounts
    ∧ (refreshTokenBody cfg s now (some tok) refreshJti platform).st.recoverPasswords
        = s.recoverPasswords
    ∧ (refreshTokenBody cfg s now (some tok) refreshJti platform).st.recoverPasswordAttemptCounts
        = s.recoverPasswordAttemptCounts
    ∧ (refreshTokenBody cfg s now (some tok) refreshJti platform).st.accountVerifications
        = s.accountVerifications
    ∧ (refreshTokenBody cfg s now (some tok) refreshJti platform).st.accVerifyAttemptCounts
        = s.accVerifyAttemptCounts
    ∧ (refreshTokenBody cfg s now (some tok) refreshJti platform).st.nextId = s.nextId
    ∧ (refreshTokenBody cfg s now (some tok) refreshJti platform).mails = [] := by
  simp only [refreshTokenBody, hu, hrec, validateUser, hlock,
    validateRefreshTokenSignatureOnly, hkind, hsig, hver,
    validateRefreshTokenFull, hexp]
  simp [St.deleteRefreshById]

/-- C5 witness: the theorem applied to `stSession` well past the token's
expiry. -/
theorem c5_expired_refresh_deletes_only_that_record_witness :
    (refreshTokenBody cfgD stSession 200001 (some refreshTokD) 11 .mobile).result
        = .error .refreshTokenExpired
    ∧ (refreshTokenBody cfgD stSession 200001 (some refreshTokD) 11 .mobile).st
        = stSession.deleteRefreshById 3
    ∧ (refreshTokenBody cfgD stSession 200001 (some refreshTokD) 11 .mobile).st.identities
        = stSession.identities
    ∧ (refreshTokenBody cfgD stSession 200001 (some refreshTokD) 11 .mobile).mails = [] := by
  have h := c5_expired_refresh_deletes_only_that_record cfgD stSession 200001 refreshTokD
    11 .mobile userD identD refreshRecD (by decide) (by decide) (by decide) (by decide)
    (by decide) (by decide) (by decide)
  exact ⟨h.1, h.2.1, h.2.2.2.1, h.2.2.2.2.2.2.2.2.2.2.2.2⟩

/-- C4: a reset-password confirm whose jti hits a soft-deleted request: a
missing counter (even including deleted rows) is an internal fault; past the
one-day window the account is locked exactly when the identity has strict
mode, a reuse alert of that severity goes out, and the call fails with
`Forbidden(RESET_PASSWORD_TOKEN_REUSE)`; within the window the call reports
success with no side effect at all. -/
theorem c4_confirm_replay_window
    (cfg : Cfg) (s : St) (now : Nat) (token : Token) (rp : ResetPassword) (d : Nat)
    (hrp : s.resetByJTI token.jti = some rp)
    (hdel : rp.deletedAt = some d) :
    (attemptByParentId s.resetPasswordAttemptCounts rp.id true = none →
      (resetPasswordConfirmBody cfg s now token).result
        = .error (.internal "This should not happen"))
    ∧ (∀ ac user ident,
        attemptByParentId s.resetPasswordAttemptCounts rp.id true = some ac →
        ac.countIncreaseLastUpdateDate + cfg.oneDaySec < now →
        s.userWithIdentityById token.userId = some (user, ident) →
        (resetPasswordConfirmBody cfg s now token).result
            = .error (.forbidden .RESET_PASSWORD_TOKEN_REUSE)
        ∧ (resetPasswordConfirmBody cfg s now token).mails
            = [Mail.reuse user.email ident.strictMode]
        ∧ (ident.strictMode = true →
            (resetPasswordConfirmBody cfg s now token).st
              = s.setLockedByIdentityId ident.id true)
        ∧ (ident.strictMode = false →
            (resetPasswordConfirmBody cfg s now token).st = s))
    ∧ (∀ ac,
        attemptByParentId s.resetPasswordAttemptCounts rp.id true = some ac →
        ¬(ac.countIncreaseLastUpdateDate + cfg.oneDaySec < now) →
        (resetPasswordConfirmBody cfg s now token).result
            = .ok (.page "Reset password already requested")
        ∧ (resetPasswordConfirmBody cfg s now token).st = s
        ∧ (resetPasswordConfirmBody cfg s now token).mails = []) := by
  refine ⟨?_, ?_, ?_⟩
  · intro hac
    simp only [resetPasswordConfirmBody, hrp, hdel, hac]
  · intro ac user ident hac habuse huser
    simp only [resetPasswordConfirmBody, hrp, hdel, hac, habuse, huser, if_pos, if_true]
    cases hstrict : ident.strictMode <;> simp [hstrict]
  · intro ac hac hbenign
    simp only [resetPasswordConfirmBody, hrp, hdel, hac, hbenign]
    simp

/-- C4 witness: the theorem applied to `stReplay`, taking the benign branch
(now = 2000, within one day of the counter's last update) and the abuse
branch (now far past the window). -/
theorem c4_confirm_replay_window_witness :
    (resetPasswordConfirmBody cfgD stReplay 2000
        (genToken .resetPassword 900 3600 1 "a@x.com" 50)).result
      = .ok (.page "Reset password already requested")
    ∧ (resetPasswordConfirmBody cfgD stReplay 2000
        (genToken .resetPassword 900 3600 1 "a@x.com" 50)).st = stReplay := by
  have h := c4_confirm_replay_window cfgD stReplay 2000
    (genToken .resetPassword 900 3600 1 "a@x.com" 50) rpDeletedD 1200
    (by decide) (by decide)
  have hb := h.2.2 acDeletedD (by decide) (by decide)
  exact ⟨hb.1, hb.2.1⟩

/-- C3: the attempt-count register driven by a send call (reset flow, whose
attempt section is shared verbatim with the recover and verify sends): with no
live counter one is created at count = 1 stamped now; below the cap the count
increases by exactly 1 and the stamp is set to now; at the cap within one day
of the stamp the call fails with `Forbidden(WAIT_FOR_ANOTHER_DAY)` and nothing
is mutated (the committed transaction state is the original); past the
cooldown the counter is reset to 0 (not 1), restamped, and the call
succeeds. -/
theorem c3_send_attempt_counter
    (cfg : Cfg) (s : St) (now userId : Nat) (newPassword oldPassword : String)
    (jti : Nat) (user : User) (ident : UserIdentity) (rp : ResetPassword)
    (hu : s.userWithIdentityById userId = some (user, ident))
    (hpw : bcryptCompare oldPassword ident.password = true)
    (hne : oldPassword ≠ newPassword)
    (hlock : ident.isLocked = false)
    (hver : ident.isAccountVerified = true)
    (hrp : s.resetByUserId user.id = some rp) :
    (attemptByParentId s.resetPasswordAttemptCounts rp.id false = none →
      (resetPasswordSendBody cfg s now userId newPassword oldPassword jti).result = .ok ()
      ∧ (resetPasswordSendBody cfg s now userId newPassword oldPassword jti).st.resetPasswordAttemptCounts
          = s.resetPasswordAttemptCounts ++
              [{ id := s.nextId, parentId := rp.id, count := 1,
                 countIncreaseLastUpdateDate := now, deletedAt := none }])
    ∧ (∀ c, attemptByParentId s.resetPasswordAttemptCounts rp.id false = some c →
        c.count < cfg.maxAttemptCount →
        (resetPasswordSendBody cfg s now userId newPassword oldPassword jti).result = .ok ()
        ∧ (resetPasswordSendBody cfg s now userId newPassword oldPassword jti).st.resetPasswordAttemptCounts
            = updateAttemptById s.resetPasswordAttemptCounts c.id (c.count + 1) now)
    ∧ (∀ c, attemptByParentId s.resetPasswordAttemptCounts rp.id false = some c →
        ¬(c.count < cfg.maxAttemptCount) →
        now - c.countIncreaseLastUpdateDate ≤ cfg.oneDaySec →
        (resetPasswordSendBody cfg s now userId newPassword oldPassword jti).result
            = .error (.forbidden .WAIT_FOR_ANOTHER_DAY)
        ∧ (resetPasswordSendBody cfg s now userId newPassword oldPassword jti).st.resetPasswordAttemptCounts
            = s.resetPasswordAttemptCounts
        ∧ (resetPasswordSend cfg s now userId newPassword oldPassword jti).st = s
        ∧ (resetPasswordSend cfg s now userId newPassword oldPassword jti).mails = [])
    ∧ (∀ c, attemptByParentId s.resetPasswordAttemptCounts rp.id false = some c →
        ¬(c.count < cfg.maxAttemptCount) →
        ¬(now - c.countIncreaseLastUpdateDate ≤ cfg.oneDaySec) →
        (resetPasswordSendBody cfg s now userId newPassword oldPassword jti).result = .ok ()
        ∧ (resetPasswordSendBody cfg s now userId newPassword oldPassword jti).st.resetPasswordAttemptCounts
            = updateAttemptById s.resetPasswordAttemptCounts c.id 0 now) := by
  refine ⟨?_, ?_, ?_, ?_⟩
  · intro hac
    simp only [resetPasswordSendBody, hu, hpw, validateUser, hlock, hver,
      attemptCountStep, hac, hrp]
    simp [hne]
  · intro c hac hlt
    simp only [resetPasswordSendBody, hu, hpw, validateUser, hlock, hver,
      attemptCountStep, hac, hrp, hlt]
    simp [hne, hlt]
  · intro c hac hge hcool
    simp only [resetPasswordSendBody, resetPasswordSend, runTx, hu, hpw, validateUser,
      hlock, hver, attemptCountStep, hac, hrp]
    simp [hne, hge, hcool]
  · intro c hac hge hcool
    simp only [resetPasswordSendBody, hu, hpw, validateUser, hlock, hver,
      attemptCountStep, hac, hrp]
    simp [hne, hge, hcool]

/-- C3 witness: the theorem applied to a saturated counter within the
cooldown (now = 2000, stamp 1000, one-day window). -/
theorem c3_send_attempt_counter_witness :
    (resetPasswordSendBody cfgD stRateLimited 2000 1 "brand-new" "old-pass" 60).result
        = .error (.forbidden .WAIT_FOR_ANOTHER_DAY)
    ∧ (resetPasswordSend cfgD stRateLimited 2000 1 "brand-new" "old-pass" 60).st
        = stRateLimited := by
  have h := c3_send_attempt_counter cfgD stRateLimited 2000 1 "brand-new" "old-pass" 60
    userD identD rpLiveD (by decide) (by decide) (by decide) (by decide) (by decide)
    (by decide)
  have hc := h.2.2.1 acMaxD (by decide) (by decide) (by decide)
  exact ⟨hc.1, hc.2.2.1⟩

/-- C6 counterexample: the claim says all three flows fail with
`NotFound(<Flow>RequestNotFound)` when the token's jti matches no request at
all.  The account-verify confirm (part_004 line 666) throws a
`ForbiddenException` carrying the `..._REQUEST_NOT_FOUND` code, not a
`NotFoundException`. -/
theorem c6_account_verify_missing_request_is_forbidden :
    (accountVerificationConfirm cfgD stSession 5
        (genToken .accountVerify 0 3600 1 "a@x.com" 77)).result
      = .error (.forbidden .ACCOUNT_VERIFICATION_REQUEST_NOT_FOUND)
    ∧ (accountVerificationConfirm cfgD stSession 5
        (genToken .accountVerify 0 3600 1 "a@x.com" 77)).result
      ≠ .error (.notFound .ACCOUNT_VERIFICATION_REQUEST_NOT_FOUND) := by
  decide

/-- C6 (amended): a confirm whose token's jti matches no request at all
(neither live nor soft-deleted) fails with
`NotFound(<Flow>RequestNotFound)` for the reset and recover flows, and with
`Forbidden(ACCOUNT_VERIFICATION_REQUEST_NOT_FOUND)` for the account-verify
flow. -/
theorem c6_confirm_unknown_jti
    (cfg : Cfg) (s : St) (now : Nat) (t1 t2 t3 : Token)
    (h1 : s.resetByJTI t1.jti = none)
    (h2 : s.recoverByJTI t2.jti = none)
    (h3 : s.accVerifyByJTI t3.jti = none) :
    (resetPasswordConfirm cfg s now t1).result
        = .error (.notFound .RESET_PASSWORD_REQUEST_NOT_FOUND)
    ∧ (recoverPasswordConfirm cfg s now t2).result
        = .error (.notFound .RECOVER_PASSWORD_REQUEST_NOT_FOUND)
    ∧ (accountVerificationConfirm cfg s now t3).result
        = .error (.forbidden .ACCOUNT_VERIFICATION_REQUEST_NOT_FOUND) := by
  refine ⟨?_, ?_, ?_⟩
  · simp only [resetPasswordConfirm, resetPasswordConfirmBody, runTx, h1]
  · simp only [recoverPasswordConfirm, recoverPasswordConfirmBody, runTx, h2]
  · simp only [accountVerificationConfirm, accountVerificationConfirmBody, runTx, h3]

/-- C6 witness: the amended theorem applied to `stSession` (which holds no
self-service request at all) and three concrete flow tokens. -/
theorem c6_confirm_unknown_jti_witness :
    (resetPasswordConfirm cfgD stSession 5
        (genToken .resetPassword 0 3600 1 "a@x.com" 77)).result
      = .error (.notFound .RESET_PASSWORD_REQUEST_NOT_FOUND)
    ∧ (recoverPasswordConfirm cfgD stSession 5
        (genToken .recoverPassword 0 3600 1 "a@x.com" 77)).result
      = .error (.notFound .RECOVER_PASSWORD_REQUEST_NOT_FOUND)
    ∧ (accountVerificationConfirm cfgD stSession 5
        (genToken .accountVerify 0 3600 1 "a@x.com" 78)).result
      = .error (.forbidden .ACCOUNT_VERIFICATION_REQUEST_NOT_FOUND) :=
  c6_confirm_unknown_jti cfgD stSession 5
    (genToken .resetPassword 0 3600 1 "a@x.com" 77)
    (genToken .recoverPassword 0 3600 1 "a@x.com" 77)
    (genToken .accountVerify 0 3600 1 "a@x.com" 78)
    (by decide) (by decide) (by decide)

/-- C8 counterexample: the claim says an immediate sign-in after a fresh
sign-up succeeds with `hasEmailVerified == false`.  Sign-up itself returns the
flag as `false`, but the code's sign-in (part_004 line 114) validates the user
with `showNotVerifiedErr: true`, so the immediate sign-in of the still-
unverified account fails with the not-verified error instead of
succeeding. -/
theorem c8_fresh_sign_in_rejected_as_unverified :
    respVerifiedFlag (signUpWithToken cfgD emptySt 5 "a@x.com" "pass1" 80 81 .mobile).result
      = some false
    ∧ (signInWithToken cfgD
        (signUpWithToken cfgD emptySt 5 "a@x.com" "pass1" 80 81 .mobile).st
        6 "a@x.com" "pass1" 82 .mobile).result
      = .error (.forbidden .USER_NOT_VERIFIED) := by
  decide

/-- C8 (amended): for every freshly signed-up user, the sign-up itself
succeeds and returns `isAccountVerified == false`, and an immediate sign-in
with the correct password fails with `Forbidden(USER_NOT_VERIFIED)` (sign-in
requires an already-verified account). -/
theorem c8_sign_up_flag_false_and_sign_in_blocked
    (cfg : Cfg) (s : St) (now1 now2 : Nat) (email password : String)
    (verifyJti refreshJti refreshJti2 : Nat) (platform platform2 : Platform)
    (husers : s.users = []) (hidents : s.identities = [])
    (havs : s.accountVerifications = []) (hacs : s.accVerifyAttemptCounts = []) :
    isOkResult (signUpWithToken cfg s now1 email password verifyJti refreshJti
        platform).result = true
    ∧ (platform ≠ .unknown →
        respVerifiedFlag (signUpWithToken cfg s now1 email password verifyJti refreshJti
          platform).result = some false)
    ∧ (signInWithToken cfg
        (signUpWithToken cfg s now1 email password verifyJti refreshJti platform).st
        now2 email password refreshJti2 platform2).result
      = .error (.forbidden .USER_NOT_VERIFIED) := by
  cases platform <;>
    simp [signUpWithToken, signUpBody, signInWithToken, signInBody,
      pureAccountVerifySend, genTokensAndSendResponse, attemptCountStep,
      attemptByParentId, runTx, validateUser, St.userWithIdentityByEmail,
      St.identityByUserId, St.accVerifyByUserId, isOkResult, respVerifiedFlag,
      husers, hidents, havs, hacs]

/-- C8 witness: the amended theorem applied to the empty store. -/
theorem c8_sign_up_flag_false_and_sign_in_blocked_witness :
    isOkResult (signUpWithToken cfgD emptySt 5 "a@x.com" "pass1" 80 81 .web).result = true
    ∧ (signInWithToken cfgD
        (signUpWithToken cfgD emptySt 5 "a@x.com" "pass1" 80 81 .web).st
        6 "a@x.com" "pass1" 82 .web).result
      = .error (.forbidden .USER_NOT_VERIFIED) := by
  have h := c8_sign_up_flag_false_and_sign_in_blocked cfgD emptySt 5 6 "a@x.com" "pass1"
    80 81 82 .web .web (by decide) (by decide) (by decide) (by decide)
  exact ⟨h.1, h.2.2⟩

/-- C9: a send call refused by the cooldown gate rolls back its transaction:
the body had already overwritten the outstanding request's token, pending
password and jti in place, but the committed state is exactly the pre-call
state — the request keeps its previous token and jti, the counter is
unchanged, and no mail goes out. -/
theorem c9_rate_limited_send_rolls_back
    (cfg : Cfg) (s : St) (now userId : Nat) (newPassword oldPassword : String)
    (jti : Nat) (user : User) (ident : UserIdentity) (rp : ResetPassword)
    (c : AttemptCount)
    (hu : s.userWithIdentityById userId = some (user, ident))
    (hpw : bcryptCompare oldPassword ident.password = true)
    (hne : oldPassword ≠ newPassword)
    (hlock : ident.isLocked = false)
    (hver : ident.isAccountVerified = true)
    (hrp : s.resetByUserId user.id = some rp)
    (hac : attemptByParentId s.resetPasswordAttemptCounts rp.id false = some c)
    (hfull : ¬(c.count < cfg.maxAttemptCount))
    (hcool : now - c.countIncreaseLastUpdateDate ≤ cfg.oneDaySec) :
    (resetPasswordSend cfg s now userId newPassword oldPassword jti).result
        = .error (.forbidden .WAIT_FOR_ANOTHER_DAY)
    ∧ (resetPasswordSend cfg s now userId newPassword oldPassword jti).st = s
    ∧ (resetPasswordSend cfg s now userId newPassword oldPassword jti).mails = []
    ∧ (resetPasswordSendBody cfg s now userId newPassword oldPassword jti).st.resetPasswords
        = s.resetPasswords.map (fun (r : ResetPassword) =>
            if r.id = rp.id then
              { r with
                  securityToken := genToken .resetPassword now cfg.resetExpSec userId
                    user.email jti
                  newPassword := bhash newPassword
                  jti := jti }
            else r) := by
  simp only [resetPasswordSend, resetPasswordSendBody, runTx, hu, hpw, validateUser,
    hlock, hver, hrp, attemptCountStep, hac]
  simp [hne, hfull, hcool]

/-- C9 witness: the theorem applied to the saturated counter of
`stRateLimited` within the cooldown. -/
theorem c9_rate_limited_send_rolls_back_witness :
    (resetPasswordSend cfgD stRateLimited 2000 1 "brand-new" "old-pass" 60).result
        = .error (.forbidden .WAIT_FOR_ANOTHER_DAY)
    ∧ (resetPasswordSend cfgD stRateLimited 2000 1 "brand-new" "old-pass" 60).st
        = stRateLimited
    ∧ (resetPasswordSend cfgD stRateLimited 2000 1 "brand-new" "old-pass" 60).mails
        = [] := by
  have h := c9_rate_limited_send_rolls_back cfgD stRateLimited 2000 1 "brand-new"
    "old-pass" 60 userD identD rpLiveD acMaxD (by decide) (by decide) (by decide)
    (by decide) (by decide) (by decide) (by decide) (by decide) (by decide)
  exact ⟨h.1, h.2.1, h.2.2.1⟩

/-- C10: a committed sign-up, besides creating the user and its identity,
leaves exactly one live account-verification request for the new user under
the freshly drawn jti and token, a fresh attempt counter at count 1 for it,
the dispatched verification mail, and the first refresh-token record — all
from the same transaction. -/
theorem c10_sign_up_leaves_pending_verification
    (cfg : Cfg) (s : St) (now : Nat) (email password : String)
    (verifyJti refreshJti : Nat) (platform : Platform)
    (husers : s.users = []) (hidents : s.identities = [])
    (havs : s.accountVerifications = []) (hacs : s.accVerifyAttemptCounts = []) :
    isOkResult (signUpWithToken cfg s now email password verifyJti refreshJti
        platform).result = true
    ∧ (signUpWithToken cfg s now email password verifyJti refreshJti platform).st.accountVerifications
        = [{ id := s.nextId + 2, userId := s.nextId,
             securityToken := genToken .accountVerify now cfg.verifyExpSec s.nextId email verifyJti,
             jti := verifyJti, deletedAt := none }]
    ∧ (signUpWithToken cfg s now email password verifyJti refreshJti platform).st.accVerifyAttemptCounts
        = [{ id := s.nextId + 3, parentId := s.nextId + 2, count := 1,
             countIncreaseLastUpdateDate := now, deletedAt := none }]
    ∧ (signUpWithToken cfg s now email password verifyJti refreshJti platform).mails
        = [Mail.accountVerify email
            (genToken .accountVerify now cfg.verifyExpSec s.nextId email verifyJti)]
    ∧ (signUpWithToken cfg s now email password verifyJti refreshJti platform).st.users
        = [{ id := s.nextId, email := email }]
    ∧ (signUpWithToken cfg s now email password verifyJti refreshJti platform).st.identities
        = [{ id := s.nextId + 1, userId := s.nextId, password := bhash password,
             isAccountVerified := false, isLocked := false, strictMode := false }]
    ∧ (signUpWithToken cfg s now email password verifyJti refreshJti platform).st.refreshTokens
        = s.refreshTokens ++
            [{ id := s.nextId + 4, userId := s.nextId, jti := refreshJti,
               iat := now, exp := now + cfg.refreshExpSec,
               token := genToken .refresh now cfg.refreshExpSec s.nextId email refreshJti }] := by
  cases platform <;>
    simp [signUpWithToken, signUpBody, pureAccountVerifySend, genTokensAndSendResponse,
      attemptCountStep, attemptByParentId, runTx, validateUser, St.userWithIdentityByEmail,
      St.identityByUserId, St.accVerifyByUserId, isOkResult, genToken,
      husers, hidents, havs, hacs]

/-- C10 witness: the theorem applied to the empty store. -/
theorem c10_sign_up_leaves_pending_verification_witness :
    isOkResult (signUpWithToken cfgD emptySt 5 "a@x.com" "pass1" 80 81 .mobile).result
        = true
    ∧ (signUpWithToken cfgD emptySt 5 "a@x.com" "pass1" 80 81 .mobile).st.accountVerifications
        = [{ id := 3, userId := 1,
             securityToken := genToken .accountVerify 5 cfgD.verifyExpSec 1 "a@x.com" 80,
             jti := 80, deletedAt := none }]
    ∧ (signUpWithToken cfgD emptySt 5 "a@x.com" "pass1" 80 81 .mobile).mails
        = [Mail.accountVerify "a@x.com"
            (genToken .accountVerify 5 cfgD.verifyExpSec 1 "a@x.com" 80)] := by
  have h := c10_sign_up_leaves_pending_verification cfgD emptySt 5 "a@x.com" "pass1"
    80 81 .mobile (by decide) (by decide) (by decide) (by decide)
  exact ⟨h.1, h.2.1, h.2.2.2.1⟩

/-- Helper: split a joined user lookup into its two store reads. -/
theorem userWithIdentityById_parts {s : St} {i : Nat} {u : User} {ident : UserIdentity}
    (h : s.userWithIdentityById i = some (u, ident)) :
    s.users.find? (fun x => decide (x.id = i)) = some u
    ∧ s.identities.find? (fun x => decide (x.userId = i)) = some ident := by
  unfold St.userWithIdentityById St.userById St.identityByUserId at h
  cases h1 : s.users.find? (fun x => decide (x.id = i)) <;> rw [h1] at h
  case none => simp at h
  case some u' =>
    cases h2 : s.identities.find? (fun x => decide (x.userId = i)) <;> rw [h2] at h
    case none => simp at h
    case some i' =>
      simp only [Option.some.injEq, Prod.mk.injEq] at h
      refine ⟨?_, ?_⟩
      · rw [h.1]
      · rw [h.2]

/-- Helper: a user found by id carries that id. -/
theorem found_user_id {l : List User} {i : Nat} {u : User}
    (h : l.find? (fun x => decide (x.id = i)) = some u) : u.id = i := by
  have := List.find?_some h
  simpa using this

/-- C7 counterexample: the claim says that after two sends, confirming the
first call's token fails with `Forbidden(<Flow>RequestInvalid)`.  The second
send overwrote the row's jti in place, so the confirm's lookup by the first
token's jti finds nothing and the call fails with
`NotFound(RESET_PASSWORD_REQUEST_NOT_FOUND)` instead. -/
theorem c7_first_token_confirm_hits_not_found :
    (resetPasswordConfirm cfgD
        (resetPasswordSend cfgD
          (resetPasswordSend cfgD stSession 10 1 "n1" "old-pass" 71).st
          20 1 "n2" "old-pass" 72).st
        30 (genToken .resetPassword 10 cfgD.resetExpSec 1 "a@x.com" 71)).result
      = .error (.notFound .RESET_PASSWORD_REQUEST_NOT_FOUND)
    ∧ (resetPasswordConfirm cfgD
        (resetPasswordSend cfgD
          (resetPasswordSend cfgD stSession 10 1 "n1" "old-pass" 71).st
          20 1 "n2" "old-pass" 72).st
        30 (genToken .resetPassword 10 cfgD.resetExpSec 1 "a@x.com" 71)).result
      ≠ .error (.forbidden .RESET_PASSWORD_REQUEST_INVALID) := by
  decide

/-- C7 (amended): calling send twice for the same user before any confirm
leaves exactly one live request row carrying the second call's token and jti,
and a subsequent confirm presenting the first call's token fails with
`NotFound(RESET_PASSWORD_REQUEST_NOT_FOUND)` (the overwritten jti no longer
resolves to any row). -/
theorem c7_second_send_invalidates_first_token
    (cfg : Cfg) (s : St) (now1 now2 now3 userId : Nat)
    (new1 new2 old : String) (jti1 jti2 : Nat) (user : User) (ident : UserIdentity)
    (hu : s.userWithIdentityById userId = some (user, ident))
    (hpw : bcryptCompare old ident.password = true)
    (hne1 : old ≠ new1) (hne2 : old ≠ new2)
    (hlock : ident.isLocked = false)
    (hver : ident.isAccountVerified = true)
    (hreset : s.resetPasswords = [])
    (hcounts : s.resetPasswordAttemptCounts = [])
    (hmax : 1 < cfg.maxAttemptCount)
    (hjti : jti1 ≠ jti2) :
    (resetPasswordSend cfg s now1 userId new1 old jti1).result = .ok ()
    ∧ (resetPasswordSend cfg (resetPasswordSend cfg s now1 userId new1 old jti1).st
        now2 userId new2 old jti2).result = .ok ()
    ∧ (resetPasswordSend cfg (resetPasswordSend cfg s now1 userId new1 old jti1).st
        now2 userId new2 old jti2).st.resetPasswords
      = [{ id := s.nextId, userId := userId,
           securityToken := genToken .resetPassword now2 cfg.resetExpSec userId
             user.email jti2,
           newPassword := bhash new2, jti := jti2, deletedAt := none }]
    ∧ (resetPasswordConfirm cfg
        (resetPasswordSend cfg (resetPasswordSend cfg s now1 userId new1 old jti1).st
          now2 userId new2 old jti2).st
        now3 (genToken .resetPassword now1 cfg.resetExpSec userId user.email jti1)).result
      = .error (.notFound .RESET_PASSWORD_REQUEST_NOT_FOUND) := by
  obtain ⟨hfu, hfi⟩ := userWithIdentityById_parts hu
  have huid : user.id = userId := found_user_id hfu
  have hjti2 : jti2 ≠ jti1 := Ne.symm hjti
  simp [resetPasswordSend, resetPasswordSendBody, resetPasswordConfirm,
    resetPasswordConfirmBody, runTx, attemptCountStep, attemptByParentId,
    updateAttemptById, validateUser, St.userWithIdentityById, St.userById,
    St.identityByUserId, St.resetByUserId, St.resetByJTI, genToken,
    hfu, hfi, huid, hpw, hne1, hne2, hlock, hver, hreset, hcounts, hmax, hjti2]

/-- C7 witness: the amended theorem applied to `stSession` with two sends
under jtis 71 and 72. -/
theorem c7_second_send_invalidates_first_token_witness :
    (resetPasswordSend cfgD stSession 10 1 "n1" "old-pass" 71).result = .ok ()
    ∧ (resetPasswordSend cfgD
        (resetPasswordSend cfgD stSession 10 1 "n1" "old-pass" 71).st
        20 1 "n2" "old-pass" 72).result = .ok ()
    ∧ (resetPasswordConfirm cfgD
        (resetPasswordSend cfgD
          (resetPasswordSend cfgD stSession 10 1 "n1" "old-pass" 71).st
          20 1 "n2" "old-pass" 72).st
        30 (genToken .resetPassword 10 cfgD.resetExpSec 1 "a@x.com" 71)).result
      = .error (.notFound .RESET_PASSWORD_REQUEST_NOT_FOUND) := by
  have h := c7_second_send_invalidates_first_token cfgD stSession 10 20 30 1
    "n1" "n2" "old-pass" 71 72 userD identD (by decide) (by decide) (by decide)
    (by decide) (by decide) (by decide) (by decide) (by decide) (by decide) (by decide)
  exact ⟨h.1, h.2.1, h.2.2.2⟩

end GorillaVault
